import Mathlib

/-!
# Verification of the bdjuno x/wasm message-handling pipeline

Shallow embedding of the wasm module's event-extraction and
record-construction pipeline (`HandleMsg` and the per-message handlers,
plus the record constructors of `types/wasm.go`).

Modelling conventions:
* Go byte slices are `List Nat` with every element `< 256`.
* Go `int64` values (heights, parsed code ids) are `Int`; Go `uint64`
  message fields are `Nat`.
* The external collaborators (the database and the contract-metadata
  source) are instrumented: a handler returns, besides its error, the
  list of resolver calls it made and the list of persistence operations
  it issued, in order.
* Behaviour of external dependencies invoked by the source
  (`encoding/base64`, `strconv.ParseInt`, `time.Parse`, the `juno`
  transaction lookups, the `wasmd` event/attribute-key constants) is
  embedded following those dependencies' documented semantics; each such
  definition says so in its doc comment.
-/

set_option maxRecDepth 4000

namespace Wasm

/-- A string key/value pair inside an event (cosmos-sdk `Attribute`). -/
structure Attribute where
  key : String
  value : String
deriving DecidableEq, Repr

/-- A typed list of attributes emitted during message execution
(cosmos-sdk `StringEvent`). -/
structure Event where
  type : String
  attributes : List Attribute
deriving DecidableEq, Repr

/-- One entry of a transaction's `Logs`: the events associated with the
message at `msgIndex` (cosmos-sdk `ABCIMessageLog`). -/
structure Log where
  msgIndex : Nat
  events : List Event
deriving DecidableEq, Repr

/-- The part of a `juno.Tx` the handlers read: the log list, the block
height and the RFC 3339 timestamp string. -/
structure Tx where
  logs : List Log
  height : Int
  timestamp : String
deriving DecidableEq, Repr

/-- A denomination/amount pair (cosmos-sdk `Coin`). -/
structure Coin where
  denom : String
  amount : Nat
deriving DecidableEq, Repr

/-- Modelled from the spec: the wasmd `AccessConfig` instantiate-permission
policy, consumed as an opaque value (wasmd is a dependency, not under
`src/`). -/
structure AccessConfig where
  permission : Nat
  address : String
deriving DecidableEq, Repr

/-- Result of `GetContractInfo`: the contract creator and extension
metadata resolved from chain state. -/
structure ContractInfo where
  creator : String
  extension : String
deriving DecidableEq, Repr

/-! ## `strconv.ParseInt(s, 10, 64)` -/

/-- Numeric value of a decimal digit character. -/
def digitVal (c : Char) : Nat := c.toNat - 48

/-- Value of a list of decimal digit characters, most significant first. -/
def decVal (cs : List Char) : Nat :=
  cs.foldl (fun acc c => 10 * acc + digitVal c) 0

/-- Split an optional leading sign off a character list, as Go's
`strconv` does: `+` and `-` are accepted, everything else is left for
the digit scan. -/
def splitSign : List Char → Int × List Char
  | '+' :: rest => (1, rest)
  | '-' :: rest => (-1, rest)
  | cs => (1, cs)

/-- Whether `c` is an ASCII decimal digit. -/
def isDecDigit (c : Char) : Bool :=
  decide ('0' ≤ c ∧ c ≤ '9')

/-- Go `strconv.ParseInt(s, 10, 64)`: an optional sign followed by a
non-empty run of decimal digits, whose signed value must fit in a signed
64-bit integer; anything else (including an out-of-range value, Go's
`ErrRange`) is an error.  This embeds the standard-library dependency the
source calls at `HandleMsgStoreCode`. -/
def parseInt64 (s : String) : Option Int :=
  let (sign, digits) := splitSign s.toList
  if digits ≠ [] ∧ digits.all isDecDigit then
    let v : Int := sign * (decVal digits : Nat)
    if -(2 ^ 63) ≤ v ∧ v ≤ 2 ^ 63 - 1 then some v else none
  else none

/-! ## `encoding/base64` (`StdEncoding`)

The source decodes `result-data` attributes with
`base64.StdEncoding.DecodeString`.  Go's standard (non-strict) decoder:

* skips `\r` and `\n` anywhere in the input;
* otherwise consumes four-character quantums over the standard alphabet,
  with `=` padding mandatory on a short final quantum and permitted only
  there;
* does **not** reject non-zero discarded trailing bits in the final
  quantum (only `Strict()` encodings do).
-/

/-- The standard base64 alphabet, index = sextet value. -/
def base64Alphabet : List Char :=
  "ABCDEFGHIJKLMNOPQRSTUVWXYZabcdefghijklmnopqrstuvwxyz0123456789+/".toList

/-- Character for a sextet value (used by `EncodeToString`). -/
def encodeChar (n : Nat) : Char := base64Alphabet.getD n 'A'

/-- Sextet value of a character, `none` when the character is not in the
standard alphabet. -/
def decodeChar (c : Char) : Option Nat :=
  let i := base64Alphabet.indexOf c
  if i < 64 then some i else none

/-- Decode a newline-free character list as a sequence of base64
quantums, mirroring Go's `decodeQuantum` loop: four alphabet characters
yield three bytes; a final quantum `xy==` yields one byte and `xyz=`
yields two; padding anywhere else, or a trailing group of fewer than
four characters, is an error.  Discarded trailing bits are ignored, as
in Go's non-strict `StdEncoding`. -/
def decodeGroups : List Char → Option (List Nat)
  | [] => some []
  | a :: b :: c :: d :: rest =>
    match decodeChar a, decodeChar b with
    | some va, some vb =>
      if c = '=' then
        if d = '=' ∧ rest = [] then some [va * 4 + vb / 16] else none
      else
        match decodeChar c with
        | some vc =>
          if d = '=' then
            if rest = [] then some [va * 4 + vb / 16, vb % 16 * 16 + vc / 4]
            else none
          else
            match decodeChar d with
            | some vd =>
              match decodeGroups rest with
              | some bytes =>
                some ((va * 4 + vb / 16) :: (vb % 16 * 16 + vc / 4) ::
                      (vc % 4 * 64 + vd) :: bytes)
              | none => none
            | none => none
        | none => none
    | _, _ => none
  | _ => none

/-- Go `base64.StdEncoding.DecodeString`: drop `\r`/`\n`, then decode
quantums. -/
def goBase64Decode (s : String) : Option (List Nat) :=
  decodeGroups (s.toList.filter fun c => decide (c ≠ '\n' ∧ c ≠ '\r'))

/-- Go `base64.StdEncoding.EncodeToString` over a byte list: groups of
three bytes become four alphabet characters; a final group of one or two
bytes is padded with `==` or `=`. -/
def encodeGroups : List Nat → List Char
  | [] => []
  | [a] => [encodeChar (a / 4), encodeChar (a % 4 * 16), '=', '=']
  | [a, b] => [encodeChar (a / 4), encodeChar (a % 4 * 16 + b / 16),
               encodeChar (b % 16 * 4), '=']
  | a :: b :: c :: rest =>
    encodeChar (a / 4) :: encodeChar (a % 4 * 16 + b / 16) ::
    encodeChar (b % 16 * 4 + c / 64) :: encodeChar (c % 64) ::
    encodeGroups rest

/-- `EncodeToString` as a `String`. -/
def goBase64Encode (bs : List Nat) : String :=
  String.mk (encodeGroups bs)

/-! ## `time.Parse(time.RFC3339, s)` -/

/-- A parsed timestamp, by components. -/
structure Instant where
  year : Nat
  month : Nat
  day : Nat
  hour : Nat
  minute : Nat
  second : Nat
  frac : Nat
  offsetMinutes : Int
deriving DecidableEq, Repr

/-- Value of a decimal digit character, `none` for a non-digit. -/
def digit? (c : Char) : Option Nat :=
  if isDecDigit c then some (digitVal c) else none

/-- Two decimal digits as a number. -/
def digits2 (a b : Char) : Option Nat := do
  let x ← digit? a
  let y ← digit? b
  pure (10 * x + y)

/-- Four decimal digits as a number. -/
def digits4 (a b c d : Char) : Option Nat := do
  let x ← digits2 a b
  let y ← digits2 c d
  pure (100 * x + y)

/-- Optional fractional-second part: either absent, or a dot followed by
at least one digit; returns the digits' value and the rest. -/
def parseFrac : List Char → Option (Nat × List Char)
  | '.' :: rest =>
    let ds := rest.takeWhile isDecDigit
    if ds = [] then none else some (decVal ds, rest.dropWhile isDecDigit)
  | rest => some (0, rest)

/-- RFC 3339 numeric time-zone part, closing the string: `Z`, or a sign
followed by `hh:mm`. -/
def parseZone : List Char → Option Int
  | ['Z'] => some 0
  | ['+', h1, h2, ':', m1, m2] => do
    let h ← digits2 h1 h2
    let m ← digits2 m1 m2
    if h ≤ 23 ∧ m ≤ 59 then pure (h * 60 + m : Nat) else none
  | ['-', h1, h2, ':', m1, m2] => do
    let h ← digits2 h1 h2
    let m ← digits2 m1 m2
    if h ≤ 23 ∧ m ≤ 59 then pure (-(h * 60 + m : Nat) : Int) else none
  | _ => none

/-- Modelled from the spec: `parse_timestamp` is Go
`time.Parse(time.RFC3339, s)` (standard library, not under `src/`) —
"a single fixed textual timestamp profile (RFC 3339 with timezone
offset, fractional seconds optional)".  The shape is
`YYYY-MM-DDThh:mm:ss[.fff…](Z|±hh:mm)` with basic range checks on the
calendar fields. -/
def parseRFC3339 (s : String) : Option Instant :=
  match s.toList with
  | y1 :: y2 :: y3 :: y4 :: '-' :: mo1 :: mo2 :: '-' :: d1 :: d2 :: 'T' ::
    h1 :: h2 :: ':' :: mi1 :: mi2 :: ':' :: s1 :: s2 :: rest => do
    let y ← digits4 y1 y2 y3 y4
    let mo ← digits2 mo1 mo2
    let d ← digits2 d1 d2
    let h ← digits2 h1 h2
    let mi ← digits2 mi1 mi2
    let se ← digits2 s1 s2
    let (fr, rest') ← parseFrac rest
    let off ← parseZone rest'
    if 1 ≤ mo ∧ mo ≤ 12 ∧ 1 ≤ d ∧ d ≤ 31 ∧ h ≤ 23 ∧ mi ≤ 59 ∧ se ≤ 59 then
      pure ⟨y, mo, d, h, mi, se, fr, off⟩
    else none
  | _ => none

/-! ## Record types and constructors (`types/wasm.go`)

The source handlers pass the incoming message to the `types.NewWasm…`
constructors, which project the fields used below; the embedding passes
those fields explicitly, matching the parameter lists of
`types/wasm.go`.  The `RawContractMessage.MarshalJSON` dependency is a
`marshalJSON` function parameter returning Go's `([]byte, error)` pair,
so that the constructors' discarding of the error component is visible
in the embedding. -/

/-- `types.WasmCode`.  The code identifier is the `int64` produced by
the handler's `strconv.ParseInt`. -/
structure WasmCode where
  sender : String
  wasmByteCode : List Nat
  instantiatePermission : Option AccessConfig
  codeID : Int
  height : Int
deriving DecidableEq, Repr

/-- `types.NewWasmCode`. -/
def NewWasmCode (sender : String) (wasmByteCode : List Nat)
    (initPermission : Option AccessConfig) (codeID : Int) (height : Int) :
    WasmCode :=
  { sender := sender
    wasmByteCode := wasmByteCode
    instantiatePermission := initPermission
    codeID := codeID
    height := height }

/-- `types.WasmContract`.  `data` holds the bytes of the decoded
`result-data` attribute (Go's `string(resultDataBz)` is
byte-preserving). -/
structure WasmContract where
  sender : String
  creator : String
  admin : String
  codeID : Nat
  label : String
  rawContractMsg : List Nat
  funds : List Coin
  contractAddress : String
  data : List Nat
  instantiatedAt : Instant
  contractInfoExtension : String
  height : Int
deriving DecidableEq, Repr

/-- `types.NewWasmContract`: performs
`rawContractMsg, _ := rawMsg.MarshalJSON()` — the error component of the
marshalling result is discarded and the byte component is used — then
assembles the record. -/
def NewWasmContract (marshalJSON : List Nat → List Nat × Option String)
    (sender : String) (admin : String) (codeID : Nat) (label : String)
    (rawMsg : List Nat) (funds : List Coin) (contractAddress : String)
    (data : List Nat) (instantiatedAt : Instant) (creator : String)
    (contractInfoExtension : String) (height : Int) : WasmContract :=
  let rawContractMsg := (marshalJSON rawMsg).1
  { sender := sender
    creator := creator
    admin := admin
    codeID := codeID
    label := label
    rawContractMsg := rawContractMsg
    funds := funds
    contractAddress := contractAddress
    data := data
    instantiatedAt := instantiatedAt
    contractInfoExtension := contractInfoExtension
    height := height }

/-- `types.WasmExecuteContract`. -/
structure WasmExecuteContract where
  sender : String
  contractAddress : String
  rawContractMsg : List Nat
  funds : List Coin
  data : List Nat
  executedAt : Instant
  height : Int
deriving DecidableEq, Repr

/-- `types.NewWasmExecuteContract`: same
`rawContractMsg, _ := rawMsg.MarshalJSON()` pattern as
`NewWasmContract`. -/
def NewWasmExecuteContract (marshalJSON : List Nat → List Nat × Option String)
    (sender : String) (contractAddress : String) (rawMsg : List Nat)
    (funds : List Coin) (data : List Nat) (executedAt : Instant)
    (height : Int) : WasmExecuteContract :=
  let rawContractMsg := (marshalJSON rawMsg).1
  { sender := sender
    contractAddress := contractAddress
    rawContractMsg := rawContractMsg
    funds := funds
    data := data
    executedAt := executedAt
    height := height }

/-- The concrete marshaller of the running code:
`wasmtypes.RawContractMessage.MarshalJSON` delegates to
`json.RawMessage.MarshalJSON`, which returns its receiver bytes with a
`nil` error (it never fails; the Go `nil`-slice case, which yields
`"null"`, has no distinct representation here and is irrelevant to the
claims). -/
def rawContractMessageMarshalJSON (r : List Nat) : List Nat × Option String :=
  (r, none)

/-! ## Messages (`wasmd` message schema, consumed verbatim) -/

/-- `wasmtypes.MsgStoreCode` fields used by the pipeline. -/
structure MsgStoreCode where
  sender : String
  wasmByteCode : List Nat
  instantiatePermission : Option AccessConfig
deriving DecidableEq, Repr

/-- `wasmtypes.MsgInstantiateContract` fields used by the pipeline. -/
structure MsgInstantiateContract where
  sender : String
  admin : String
  codeID : Nat
  label : String
  msg : List Nat
  funds : List Coin
deriving DecidableEq, Repr

/-- `wasmtypes.MsgExecuteContract` fields used by the pipeline. -/
structure MsgExecuteContract where
  sender : String
  contract : String
  msg : List Nat
  funds : List Coin
deriving DecidableEq, Repr

/-- `wasmtypes.MsgMigrateContract` fields used by the pipeline. -/
structure MsgMigrateContract where
  sender : String
  contract : String
  codeID : Nat
  msg : List Nat
deriving DecidableEq, Repr

/-- `wasmtypes.MsgUpdateAdmin` fields used by the pipeline. -/
structure MsgUpdateAdmin where
  sender : String
  newAdmin : String
  contract : String
deriving DecidableEq, Repr

/-- `wasmtypes.MsgClearAdmin` fields used by the pipeline. -/
structure MsgClearAdmin where
  sender : String
  contract : String
deriving DecidableEq, Repr

/-- The closed variant of message kinds dispatched by `HandleMsg`'s type
switch; `other` stands for every `sdk.Msg` the switch does not mention,
which falls through to `return nil`. -/
inductive Msg where
  | storeCode (m : MsgStoreCode)
  | instantiateContract (m : MsgInstantiateContract)
  | executeContract (m : MsgExecuteContract)
  | migrateContract (m : MsgMigrateContract)
  | updateAdmin (m : MsgUpdateAdmin)
  | clearAdmin (m : MsgClearAdmin)
  | other
deriving DecidableEq, Repr

/-! ## Event-type and attribute-key constants

Modelled from the spec: the `wasmtypes` event/attribute-key constants
are a dependency, not under `src/`; the spec's names for them are used
as their string values (the handlers only compare them for equality, so
only their distinctness matters). -/

/-- `wasmtypes.EventTypeStoreCode`. -/
def EventTypeStoreCode : String := "store-code"

/-- `wasmtypes.EventTypeInstantiate`. -/
def EventTypeInstantiate : String := "instantiate"

/-- `wasmtypes.EventTypeExecute`. -/
def EventTypeExecute : String := "execute"

/-- `wasmtypes.EventTypeMigrate`. -/
def EventTypeMigrate : String := "migrate"

/-- `wasmtypes.AttributeKeyCodeID`. -/
def AttributeKeyCodeID : String := "code-identifier"

/-- `wasmtypes.AttributeKeyContractAddr`. -/
def AttributeKeyContractAddr : String := "contract-address"

/-- `wasmtypes.AttributeKeyResultDataHex`. -/
def AttributeKeyResultDataHex : String := "result-data"

/-! ## Transaction lookups (`juno.Tx` methods) -/

/-- Modelled from the spec: `juno.Tx.FindEventByType` (dependency, not
under `src/`) — "searches the events attached to/associated with the
message at `index`; multiple events of the same type are disambiguated
by source-defined ordering (first match at that index scope)". -/
def FindEventByType (tx : Tx) (index : Nat) (eventType : String) :
    Option Event :=
  (((tx.logs.filter fun l => l.msgIndex == index).map Log.events).flatten).find?
    fun e => e.type == eventType

/-- Modelled from the spec: `juno.Tx.FindAttributeByKey` (dependency,
not under `src/`) — first attribute of the event with the given key;
absence is a distinct, reportable failure, not a defaulted value. -/
def FindAttributeByKey (event : Event) (attrKey : String) : Option String :=
  (event.attributes.find? fun a => a.key == attrKey).map Attribute.value

/-! ## Instrumented handler results -/

/-- The stage that failed, carrying the name of the thing that actually
failed (the sought event type or attribute key, the undecodable input,
or the resolver's message). -/
inductive FailureCause where
  | eventNotFound (eventType : String)
  | attributeNotFound (attrKey : String)
  | base64DecodeFailed (input : String)
  | intParseFailed (input : String)
  | timeParseFailed (input : String)
  | resolverFailed (message : String)
deriving DecidableEq, Repr

/-- A handler error: the `fmt.Errorf` wrapping text used at the failing
return site in the source (verbatim), plus the underlying cause. -/
structure HandlerError where
  annot : String
  cause : FailureCause
deriving DecidableEq, Repr

/-- A persistence operation issued to the database collaborator
(`m.db`). -/
inductive DbOp where
  | saveWasmCode (code : WasmCode)
  | saveWasmContract (contract : WasmContract)
  | saveWasmExecuteContract (exec : WasmExecuteContract)
  | updateContractWithMsgMigrateContract (sender : String) (contract : String)
      (codeID : Nat) (msg : List Nat) (data : List Nat)
  | updateContractAdmin (sender : String) (contract : String) (admin : String)
deriving DecidableEq, Repr

/-- Instrumented outcome of a handler: the `GetContractInfo` calls made
(height/address pairs, in order), the persistence operations issued (in
order), and the returned error, `none` for Go's `nil`. -/
structure HandlerResult where
  resolverCalls : List (Int × String)
  dbOps : List DbOp
  err : Option HandlerError
deriving DecidableEq, Repr

/-- The contract-metadata source (`m.source.GetContractInfo`): an
external collaborator mapping a height and address to contract info or
an error. -/
abbrev Source := Int → String → Except String ContractInfo

/-! ## Handlers (`modules/wasm/handle_msg.go`)

Each handler mirrors its source function statement by statement; every
`return fmt.Errorf(...)` site becomes a `HandlerResult` whose error
carries that site's wrapping text verbatim, and every `m.db.…` /
`m.source.…` call is recorded in the trace. -/

/-- `Module.HandleMsgStoreCode`. -/
def HandleMsgStoreCode (tx : Tx) (index : Nat) (msg : MsgStoreCode) :
    HandlerResult :=
  match FindEventByType tx index EventTypeStoreCode with
  | none =>
    ⟨[], [], some ⟨"error while searching for EventTypeInstantiate",
                   .eventNotFound EventTypeStoreCode⟩⟩
  | some event =>
    match FindAttributeByKey event AttributeKeyCodeID with
    | none =>
      ⟨[], [], some ⟨"error while searching for AttributeKeyContractAddr",
                     .attributeNotFound AttributeKeyCodeID⟩⟩
    | some codeIDKey =>
      match parseInt64 codeIDKey with
      | none =>
        ⟨[], [], some ⟨"error while parsing code id to int64",
                       .intParseFailed codeIDKey⟩⟩
      | some codeID =>
        ⟨[], [.saveWasmCode (NewWasmCode msg.sender msg.wasmByteCode
                 msg.instantiatePermission codeID tx.height)], none⟩

/-- `Module.HandleMsgInstantiateContract`. -/
def HandleMsgInstantiateContract (source : Source) (tx : Tx) (index : Nat)
    (msg : MsgInstantiateContract) : HandlerResult :=
  match FindEventByType tx index EventTypeInstantiate with
  | none =>
    ⟨[], [], some ⟨"error while searching for EventTypeInstantiate",
                   .eventNotFound EventTypeInstantiate⟩⟩
  | some event =>
    match FindAttributeByKey event AttributeKeyContractAddr with
    | none =>
      ⟨[], [], some ⟨"error while searching for AttributeKeyContractAddr",
                     .attributeNotFound AttributeKeyContractAddr⟩⟩
    | some contractAddress =>
      match FindAttributeByKey event AttributeKeyResultDataHex with
      | none =>
        ⟨[], [], some ⟨"error while searching for AttributeKeyResultDataHex",
                       .attributeNotFound AttributeKeyResultDataHex⟩⟩
      | some resultData =>
        match goBase64Decode resultData with
        | none =>
          ⟨[], [], some ⟨"error while decoding result data",
                         .base64DecodeFailed resultData⟩⟩
        | some resultDataBz =>
          match source tx.height contractAddress with
          | .error e =>
            ⟨[(tx.height, contractAddress)], [],
             some ⟨"error while getting proposal", .resolverFailed e⟩⟩
          | .ok contractInfo =>
            match parseRFC3339 tx.timestamp with
            | none =>
              ⟨[(tx.height, contractAddress)], [],
               some ⟨"error while parsing time",
                     .timeParseFailed tx.timestamp⟩⟩
            | some timestamp =>
              ⟨[(tx.height, contractAddress)],
               [.saveWasmContract (NewWasmContract
                  rawContractMessageMarshalJSON msg.sender msg.admin
                  msg.codeID msg.label msg.msg msg.funds contractAddress
                  resultDataBz timestamp contractInfo.creator
                  contractInfo.extension tx.height)],
               none⟩

/-- `Module.HandleMsgExecuteContract`. -/
def HandleMsgExecuteContract (tx : Tx) (index : Nat)
    (msg : MsgExecuteContract) : HandlerResult :=
  match FindEventByType tx index EventTypeExecute with
  | none =>
    ⟨[], [], some ⟨"error while searching for EventTypeExecute",
                   .eventNotFound EventTypeExecute⟩⟩
  | some event =>
    match FindAttributeByKey event AttributeKeyResultDataHex with
    | none =>
      ⟨[], [], some ⟨"error while searching for AttributeKeyResultDataHex",
                     .attributeNotFound AttributeKeyResultDataHex⟩⟩
    | some resultData =>
      match goBase64Decode resultData with
      | none =>
        ⟨[], [], some ⟨"error while decoding result data",
                       .base64DecodeFailed resultData⟩⟩
      | some resultDataBz =>
        match parseRFC3339 tx.timestamp with
        | none =>
          ⟨[], [], some ⟨"error while parsing time",
                         .timeParseFailed tx.timestamp⟩⟩
        | some timestamp =>
          ⟨[], [.saveWasmExecuteContract (NewWasmExecuteContract
                  rawContractMessageMarshalJSON msg.sender msg.contract
                  msg.msg msg.funds resultDataBz timestamp tx.height)],
           none⟩

/-- `Module.HandleMsgMigrateContract`. -/
def HandleMsgMigrateContract (tx : Tx) (index : Nat)
    (msg : MsgMigrateContract) : HandlerResult :=
  match FindEventByType tx index EventTypeMigrate with
  | none =>
    ⟨[], [], some ⟨"error while searching for EventTypeMigrate",
                   .eventNotFound EventTypeMigrate⟩⟩
  | some event =>
    match FindAttributeByKey event AttributeKeyResultDataHex with
    | none =>
      ⟨[], [], some ⟨"error while searching for AttributeKeyResultDataHex",
                     .attributeNotFound AttributeKeyResultDataHex⟩⟩
    | some resultData =>
      match goBase64Decode resultData with
      | none =>
        ⟨[], [], some ⟨"error while decoding result data",
                       .base64DecodeFailed resultData⟩⟩
      | some resultDataBz =>
        ⟨[], [.updateContractWithMsgMigrateContract msg.sender msg.contract
                msg.codeID msg.msg resultDataBz], none⟩

/-- `Module.HandleMsgUpdateAdmin` — takes no transaction: no event or
attribute lookup is possible. -/
def HandleMsgUpdateAdmin (msg : MsgUpdateAdmin) : HandlerResult :=
  ⟨[], [.updateContractAdmin msg.sender msg.contract msg.newAdmin], none⟩

/-- `Module.HandleMsgClearAdmin` — takes no transaction; the admin
argument is the literal empty string. -/
def HandleMsgClearAdmin (msg : MsgClearAdmin) : HandlerResult :=
  ⟨[], [.updateContractAdmin msg.sender msg.contract ""], none⟩

/-- `Module.HandleMsg`: the dispatcher.  `if len(tx.Logs) == 0 { return
nil }`, then the type switch; unmatched kinds fall through to
`return nil`. -/
def HandleMsg (source : Source) (index : Nat) (msg : Msg) (tx : Tx) :
    HandlerResult :=
  if tx.logs.isEmpty then ⟨[], [], none⟩
  else
    match msg with
    | .storeCode m => HandleMsgStoreCode tx index m
    | .instantiateContract m => HandleMsgInstantiateContract source tx index m
    | .executeContract m => HandleMsgExecuteContract tx index m
    | .migrateContract m => HandleMsgMigrateContract tx index m
    | .updateAdmin m => HandleMsgUpdateAdmin m
    | .clearAdmin m => HandleMsgClearAdmin m
    | .other => ⟨[], [], none⟩

/-! ## Concrete fixtures for witnesses and counterexamples -/

/-- A metadata source that always succeeds. -/
def sourceOK : Source := fun _ _ => .ok ⟨"creator-addr", "extension-data"⟩

/-- A metadata source that always fails. -/
def sourceFail : Source := fun _ _ => .error "contract not found"

/-- Store-code message fixture. -/
def msgStoreCode0 : MsgStoreCode := ⟨"sender-sc", [0, 97], none⟩

/-- Instantiate message fixture. -/
def msgInst0 : MsgInstantiateContract :=
  ⟨"sender-in", "admin-in", 7, "label-in", [123, 125], [⟨"stake", 5⟩]⟩

/-- Execute message fixture. -/
def msgExec0 : MsgExecuteContract := ⟨"sender-ex", "contract-ex", [123, 125], []⟩

/-- Migrate message fixture. -/
def msgMigr0 : MsgMigrateContract := ⟨"sender-mg", "contract-mg", 9, [123, 125]⟩

/-- Update-admin message fixture. -/
def msgUpd0 : MsgUpdateAdmin := ⟨"sender-ua", "new-admin", "contract-ua"⟩

/-- Clear-admin message fixture. -/
def msgClr0 : MsgClearAdmin := ⟨"sender-ca", "contract-ca"⟩

/-- Transaction whose store-code event carries code id `"42"`. -/
def txStoreCode42 : Tx :=
  ⟨[⟨0, [⟨EventTypeStoreCode, [⟨AttributeKeyCodeID, "42"⟩]⟩]⟩], 100,
   "2022-01-01T10:00:00Z"⟩

/-- Transaction whose store-code event carries the decimal value
`2 ^ 63`, one past the largest signed 64-bit integer. -/
def txStoreCodeBig : Tx :=
  ⟨[⟨0, [⟨EventTypeStoreCode,
          [⟨AttributeKeyCodeID, "9223372036854775808"⟩]⟩]⟩], 100,
   "2022-01-01T10:00:00Z"⟩

/-- Transaction with a log but no store-code event. -/
def txStoreNoEvent : Tx :=
  ⟨[⟨0, [⟨"transfer", []⟩]⟩], 100, "2022-01-01T10:00:00Z"⟩

/-- Transaction whose store-code event has no code-identifier
attribute. -/
def txStoreNoAttr : Tx :=
  ⟨[⟨0, [⟨EventTypeStoreCode, []⟩]⟩], 100, "2022-01-01T10:00:00Z"⟩

/-- Transaction with a complete instantiate event. -/
def txInstFull : Tx :=
  ⟨[⟨0, [⟨EventTypeInstantiate,
          [⟨AttributeKeyContractAddr, "wasm1contract"⟩,
           ⟨AttributeKeyResultDataHex, "QQ=="⟩]⟩]⟩], 100,
   "2022-01-01T10:00:00Z"⟩

/-- Transaction whose instantiate event lacks the result-data
attribute. -/
def txInstNoData : Tx :=
  ⟨[⟨0, [⟨EventTypeInstantiate,
          [⟨AttributeKeyContractAddr, "wasm1contract"⟩]⟩]⟩], 100,
   "2022-01-01T10:00:00Z"⟩

/-- Transaction whose execute event carries invalid base64 result
data. -/
def txExecBadData : Tx :=
  ⟨[⟨0, [⟨EventTypeExecute, [⟨AttributeKeyResultDataHex, "%%%"⟩]⟩]⟩], 100,
   "2022-01-01T10:00:00Z"⟩

/-- Transaction with a complete migrate event. -/
def txMigrFull : Tx :=
  ⟨[⟨0, [⟨EventTypeMigrate, [⟨AttributeKeyResultDataHex, "QQ=="⟩]⟩]⟩], 100,
   "2022-01-01T10:00:00Z"⟩

/-- Transaction with a non-empty log list and no events, for the
admin-only messages. -/
def txPlain : Tx := ⟨[⟨0, []⟩], 100, "2022-01-01T10:00:00Z"⟩

/-! ## Helper lemmas -/

/-- Store-code handler: an error means no persistence operation. -/
theorem HandleMsgStoreCode_err_no_db (tx : Tx) (index : Nat)
    (m : MsgStoreCode) :
    (HandleMsgStoreCode tx index m).err.isSome →
    (HandleMsgStoreCode tx index m).dbOps = [] := by
  unfold HandleMsgStoreCode
  repeat' split
  all_goals intro h
  all_goals first | rfl | simp at h

/-- Instantiate handler: an error means no persistence operation. -/
theorem HandleMsgInstantiateContract_err_no_db (source : Source) (tx : Tx)
    (index : Nat) (m : MsgInstantiateContract) :
    (HandleMsgInstantiateContract source tx index m).err.isSome →
    (HandleMsgInstantiateContract source tx index m).dbOps = [] := by
  unfold HandleMsgInstantiateContract
  repeat' split
  all_goals intro h
  all_goals first | rfl | simp at h

/-- Execute handler: an error means no persistence operation. -/
theorem HandleMsgExecuteContract_err_no_db (tx : Tx) (index : Nat)
    (m : MsgExecuteContract) :
    (HandleMsgExecuteContract tx index m).err.isSome →
    (HandleMsgExecuteContract tx index m).dbOps = [] := by
  unfold HandleMsgExecuteContract
  repeat' split
  all_goals intro h
  all_goals first | rfl | simp at h

/-- Migrate handler: an error means no persistence operation. -/
theorem HandleMsgMigrateContract_err_no_db (tx : Tx) (index : Nat)
    (m : MsgMigrateContract) :
    (HandleMsgMigrateContract tx index m).err.isSome →
    (HandleMsgMigrateContract tx index m).dbOps = [] := by
  unfold HandleMsgMigrateContract
  repeat' split
  all_goals intro h
  all_goals first | rfl | simp at h

/-- Decoding an alphabet character recovers its sextet value. -/
theorem decodeChar_encodeChar_fin :
    ∀ n : Fin 64, decodeChar (encodeChar n.1) = some n.1 := by decide

/-- Nat form of `decodeChar_encodeChar_fin`. -/
theorem decodeChar_encodeChar {n : Nat} (h : n < 64) :
    decodeChar (encodeChar n) = some n :=
  decodeChar_encodeChar_fin ⟨n, h⟩

/-- Alphabet characters are never the padding character. -/
theorem encodeChar_ne_pad_fin : ∀ n : Fin 64, encodeChar n.1 ≠ '=' := by
  decide

/-- Nat form of `encodeChar_ne_pad_fin`. -/
theorem encodeChar_ne_pad {n : Nat} (h : n < 64) : encodeChar n ≠ '=' :=
  encodeChar_ne_pad_fin ⟨n, h⟩

/-- Alphabet characters are never newlines. -/
theorem encodeChar_not_newline_fin :
    ∀ n : Fin 64, encodeChar n.1 ≠ '\n' ∧ encodeChar n.1 ≠ '\r' := by decide

/-- No `encodeChar` output, even out of range, is a newline. -/
theorem encodeChar_not_newline (n : Nat) :
    encodeChar n ≠ '\n' ∧ encodeChar n ≠ '\r' := by
  by_cases h : n < 64
  · exact encodeChar_not_newline_fin ⟨n, h⟩
  · unfold encodeChar
    rw [List.getD_eq_default]
    · decide
    · have : base64Alphabet.length = 64 := by decide
      omega

/-- Every character emitted by the encoder is padding or an alphabet
character. -/
theorem mem_encodeGroups (bs : List Nat) (c : Char)
    (hc : c ∈ encodeGroups bs) : c = '=' ∨ ∃ n, c = encodeChar n := by
  induction bs using encodeGroups.induct with
  | case1 => simp [encodeGroups] at hc
  | case2 a =>
    simp [encodeGroups] at hc
    rcases hc with h | h | h
    · exact Or.inr ⟨_, h⟩
    · exact Or.inr ⟨_, h⟩
    · exact Or.inl h
  | case3 a b =>
    simp [encodeGroups] at hc
    rcases hc with h | h | h | h
    · exact Or.inr ⟨_, h⟩
    · exact Or.inr ⟨_, h⟩
    · exact Or.inr ⟨_, h⟩
    · exact Or.inl h
  | case4 a b d rest ih =>
    simp [encodeGroups] at hc
    rcases hc with h | h | h | h | h
    · exact Or.inr ⟨_, h⟩
    · exact Or.inr ⟨_, h⟩
    · exact Or.inr ⟨_, h⟩
    · exact Or.inr ⟨_, h⟩
    · exact ih (by simpa using h)

/-- The decoder's newline filter leaves encoder output unchanged. -/
theorem filter_encodeGroups (bs : List Nat) :
    (encodeGroups bs).filter (fun c => decide (c ≠ '\n' ∧ c ≠ '\r')) =
      encodeGroups bs := by
  apply List.filter_eq_self.mpr
  intro c hc
  rw [decide_eq_true_eq]
  rcases mem_encodeGroups bs c hc with h | ⟨n, h⟩
  · subst h; decide
  · subst h; exact encodeChar_not_newline n

/-- Quantum-level round trip: decoding the encoding of a byte list
recovers it. -/
theorem decodeGroups_encodeGroups (bs : List Nat)
    (h : ∀ x ∈ bs, x < 256) :
    decodeGroups (encodeGroups bs) = some bs := by
  induction bs using encodeGroups.induct with
  | case1 => rfl
  | case2 a =>
    have ha : a < 256 := h a (by simp)
    have h1 := decodeChar_encodeChar (n := a / 4) (by omega)
    have h2 := decodeChar_encodeChar (n := a % 4 * 16) (by omega)
    simp [encodeGroups, decodeGroups, h1, h2]
    omega
  | case3 a b =>
    have ha : a < 256 := h a (by simp)
    have hb : b < 256 := h b (by simp)
    have h1 := decodeChar_encodeChar (n := a / 4) (by omega)
    have h2 := decodeChar_encodeChar (n := a % 4 * 16 + b / 16) (by omega)
    have h3 := decodeChar_encodeChar (n := b % 16 * 4) (by omega)
    have hne3 := encodeChar_ne_pad (n := b % 16 * 4) (by omega)
    simp [encodeGroups, decodeGroups, h1, h2, h3, hne3]
    omega
  | case4 a b c rest ih =>
    have ha : a < 256 := h a (by simp)
    have hb : b < 256 := h b (by simp)
    have hcb : c < 256 := h c (by simp)
    have hrest : ∀ x ∈ rest, x < 256 := fun x hx => h x (by simp [hx])
    have h1 := decodeChar_encodeChar (n := a / 4) (by omega)
    have h2 := decodeChar_encodeChar (n := a % 4 * 16 + b / 16) (by omega)
    have h3 := decodeChar_encodeChar (n := b % 16 * 4 + c / 64) (by omega)
    have h4 := decodeChar_encodeChar (n := c % 64) (by omega)
    have hne3 := encodeChar_ne_pad (n := b % 16 * 4 + c / 64) (by omega)
    have hne4 := encodeChar_ne_pad (n := c % 64) (by omega)
    simp [encodeGroups, decodeGroups, h1, h2, h3, h4, hne3, hne4, ih hrest]
    omega

/-! ## Claim theorems -/

/-- C1.  For every message kind, whenever the dispatched handler
returns an error — which, by construction of the embedding, is exactly
when some extraction stage (event lookup, attribute lookup, base64
decode, timestamp parse, or metadata resolution) fails — no persistence
operation at all is issued for that message: the trace of
`save_code` / `save_contract` / `save_execute` / contract-update calls
is empty.  Each failing stage returns its own error immediately, so no
stage's failed result is ever replaced by a default value. -/
theorem claim_C1_failure_means_no_persistence (source : Source) (index : Nat)
    (msg : Msg) (tx : Tx) :
    (HandleMsg source index msg tx).err.isSome →
    (HandleMsg source index msg tx).dbOps = [] := by
  cases msg with
  | storeCode m =>
    simp only [HandleMsg]
    split
    · intro h; simp at h
    · exact HandleMsgStoreCode_err_no_db tx index m
  | instantiateContract m =>
    simp only [HandleMsg]
    split
    · intro h; simp at h
    · exact HandleMsgInstantiateContract_err_no_db source tx index m
  | executeContract m =>
    simp only [HandleMsg]
    split
    · intro h; simp at h
    · exact HandleMsgExecuteContract_err_no_db tx index m
  | migrateContract m =>
    simp only [HandleMsg]
    split
    · intro h; simp at h
    · exact HandleMsgMigrateContract_err_no_db tx index m
  | updateAdmin m =>
    simp only [HandleMsg]
    split
    · intro h; simp at h
    · intro h; simp [HandleMsgUpdateAdmin] at h
  | clearAdmin m =>
    simp only [HandleMsg]
    split
    · intro h; simp at h
    · intro h; simp [HandleMsgClearAdmin] at h
  | other =>
    simp only [HandleMsg]
    split
    · intro h; simp at h
    · intro h; simp at h

/-- Witness for C1, at the spec's two failure scenarios: an instantiate
event missing its result-data attribute, and an execute event whose
result-data is the invalid base64 string `"%%%"`; both fail and persist
nothing. -/
theorem claim_C1_witness :
    (HandleMsg sourceOK 0 (.instantiateContract msgInst0) txInstNoData).dbOps
      = [] ∧
    (HandleMsg sourceOK 0 (.executeContract msgExec0) txExecBadData).dbOps
      = [] :=
  ⟨claim_C1_failure_means_no_persistence sourceOK 0
     (.instantiateContract msgInst0) txInstNoData (by decide),
   claim_C1_failure_means_no_persistence sourceOK 0
     (.executeContract msgExec0) txExecBadData (by decide)⟩

/-- C2.  A transaction whose log list is empty short-circuits
`HandleMsg` for every message kind: no error, no resolver call, no
persistence operation. -/
theorem claim_C2_empty_logs_noop (source : Source) (index : Nat) (msg : Msg)
    (tx : Tx) (h : tx.logs = []) :
    HandleMsg source index msg tx = ⟨[], [], none⟩ := by
  unfold HandleMsg
  simp [h]

/-- Witness for C2 at a concrete store-code message and a log-free
transaction. -/
theorem claim_C2_witness :
    HandleMsg sourceOK 0 (.storeCode msgStoreCode0)
      ⟨[], 5, "2022-01-01T10:00:00Z"⟩ = ⟨[], [], none⟩ :=
  claim_C2_empty_logs_noop sourceOK 0 (.storeCode msgStoreCode0)
    ⟨[], 5, "2022-01-01T10:00:00Z"⟩ rfl

/-- C8.  With a non-empty log list, an update-admin message makes
exactly one `update_contract_admin(sender, contract, newAdmin)` call
and a clear-admin message makes exactly one
`update_contract_admin(sender, contract, "")` call; in both cases the
result is a constant independent of the transaction's events — the
handlers do not even receive the transaction, so no event or attribute
lookup can occur — and the empty new admin for clear-admin is the
literal `""`, whatever the contract's prior admin was. -/
theorem claim_C8_admin_updates (source : Source) (index : Nat) (tx : Tx)
    (h : tx.logs ≠ []) (mU : MsgUpdateAdmin) (mC : MsgClearAdmin) :
    HandleMsg source index (.updateAdmin mU) tx =
      ⟨[], [.updateContractAdmin mU.sender mU.contract mU.newAdmin], none⟩ ∧
    HandleMsg source index (.clearAdmin mC) tx =
      ⟨[], [.updateContractAdmin mC.sender mC.contract ""], none⟩ := by
  have hne : tx.logs.isEmpty = false := by simp [h]
  unfold HandleMsg
  rw [hne]
  exact ⟨rfl, rfl⟩

/-- Witness for C8 at the spec's scenario
`UpdateAdmin{sender:S, contract:C, new_admin:A}` (and a concrete
clear-admin message). -/
theorem claim_C8_witness :
    HandleMsg sourceOK 0 (.updateAdmin msgUpd0) txPlain =
      ⟨[], [.updateContractAdmin "sender-ua" "contract-ua" "new-admin"],
       none⟩ ∧
    HandleMsg sourceOK 0 (.clearAdmin msgClr0) txPlain =
      ⟨[], [.updateContractAdmin "sender-ca" "contract-ca" ""], none⟩ :=
  claim_C8_admin_updates sourceOK 0 txPlain (by decide) msgUpd0 msgClr0

/-- C9 (claim refuted; code bug).  The error annotations do **not**
name the stage that actually failed: a failed store-code event lookup
is annotated `"error while searching for EventTypeInstantiate"`, a
failed code-identifier attribute lookup is annotated
`"error while searching for AttributeKeyContractAddr"`, and a failed
metadata resolution is annotated `"error while getting proposal"` —
copy-paste slips in the source, evaluated here at concrete failing
inputs. -/
theorem claim_C9_wrong_annotations :
    (HandleMsgStoreCode txStoreNoEvent 0 msgStoreCode0).err =
      some ⟨"error while searching for EventTypeInstantiate",
            .eventNotFound EventTypeStoreCode⟩ ∧
    (HandleMsgStoreCode txStoreNoAttr 0 msgStoreCode0).err =
      some ⟨"error while searching for AttributeKeyContractAddr",
            .attributeNotFound AttributeKeyCodeID⟩ ∧
    (HandleMsgInstantiateContract sourceFail txInstFull 0 msgInst0).err =
      some ⟨"error while getting proposal",
            .resolverFailed "contract not found"⟩ := by
  refine ⟨rfl, rfl, ?_⟩
  decide

/-- C10.  Both record constructors perform
`rawContractMsg, _ := rawMsg.MarshalJSON()`: for **any** marshaller and
any raw message on which it fails — returning Go's conventional
`(nil, err)` pair — the record is still fully constructed, with the
raw-payload field silently the empty byte value and every other field
intact; construction never fails. -/
theorem claim_C10_marshal_error_discarded
    (marshalJSON : List Nat → List Nat × Option String) (rawMsg : List Nat)
    (e : String) (hm : marshalJSON rawMsg = ([], some e))
    (sender admin label contractAddress creator ext : String) (codeID : Nat)
    (funds : List Coin) (data : List Nat) (t : Instant) (height : Int) :
    NewWasmContract marshalJSON sender admin codeID label rawMsg funds
        contractAddress data t creator ext height =
      { sender := sender, creator := creator, admin := admin,
        codeID := codeID, label := label, rawContractMsg := [],
        funds := funds, contractAddress := contractAddress, data := data,
        instantiatedAt := t, contractInfoExtension := ext,
        height := height } ∧
    NewWasmExecuteContract marshalJSON sender contractAddress rawMsg funds
        data t height =
      { sender := sender, contractAddress := contractAddress,
        rawContractMsg := [], funds := funds, data := data,
        executedAt := t, height := height } := by
  unfold NewWasmContract NewWasmExecuteContract
  rw [hm]
  exact ⟨rfl, rfl⟩

/-- Witness for C10 with a marshaller that fails on every input. -/
theorem claim_C10_witness :
    NewWasmContract (fun _ => ([], some "marshal failure")) "s" "a" 3 "l"
        [1, 2] [] "addr" [65] ⟨2022, 1, 1, 10, 0, 0, 0, 0⟩ "c" "e" 100 =
      { sender := "s", creator := "c", admin := "a", codeID := 3,
        label := "l", rawContractMsg := [], funds := [],
        contractAddress := "addr", data := [65],
        instantiatedAt := ⟨2022, 1, 1, 10, 0, 0, 0, 0⟩,
        contractInfoExtension := "e", height := 100 } ∧
    NewWasmExecuteContract (fun _ => ([], some "marshal failure")) "s"
        "addr" [1, 2] [] [65] ⟨2022, 1, 1, 10, 0, 0, 0, 0⟩ 100 =
      { sender := "s", contractAddress := "addr", rawContractMsg := [],
        funds := [], data := [65],
        executedAt := ⟨2022, 1, 1, 10, 0, 0, 0, 0⟩, height := 100 } :=
  claim_C10_marshal_error_discarded (fun _ => ([], some "marshal failure"))
    [1, 2] "marshal failure" rfl "s" "a" "l" "addr" "c" "e" 3 [] [65]
    ⟨2022, 1, 1, 10, 0, 0, 0, 0⟩ 100

/-- C3 (amended: the decimal value must also fit in a signed 64-bit
integer, since the source parses with `strconv.ParseInt(s, 10, 64)`).
When the located store-code event's code-identifier attribute is an
optionally signed decimal numeral whose value lies within the `int64`
range, the produced code record carries exactly that value as its code
identifier and the transaction's height; when `ParseInt` fails
(non-numeric or out of range), the handler returns the parse error and
produces nothing. -/
theorem claim_C3_code_id_extraction (tx : Tx) (index : Nat)
    (m : MsgStoreCode) (event : Event) (s : String)
    (hev : FindEventByType tx index EventTypeStoreCode = some event)
    (hattr : FindAttributeByKey event AttributeKeyCodeID = some s) :
    (∀ (sign : Int) (ds : List Char),
       splitSign s.toList = (sign, ds) → ds ≠ [] → ds.all isDecDigit →
       -(2 ^ 63) ≤ sign * (decVal ds : Nat) →
       sign * (decVal ds : Nat) ≤ 2 ^ 63 - 1 →
       HandleMsgStoreCode tx index m =
         ⟨[], [.saveWasmCode (NewWasmCode m.sender m.wasmByteCode
             m.instantiatePermission (sign * (decVal ds : Nat)) tx.height)],
          none⟩) ∧
    (parseInt64 s = none →
       HandleMsgStoreCode tx index m =
         ⟨[], [], some ⟨"error while parsing code id to int64",
                        .intParseFailed s⟩⟩) := by
  constructor
  · intro sign ds hsplit hne hdig hlo hhi
    have hp : parseInt64 s = some (sign * (decVal ds : Nat)) := by
      unfold parseInt64
      rw [hsplit]
      norm_num at hlo hhi
      simp [hne, hdig, hlo, hhi]
    simp [HandleMsgStoreCode, hev, hattr, hp]
  · intro hp
    simp [HandleMsgStoreCode, hev, hattr, hp]

/-- Witness for C3 at the spec's scenario: store-code event with
code-identifier `"42"` at height 100 produces the code record with
identifier 42 and height 100. -/
theorem claim_C3_witness :
    HandleMsgStoreCode txStoreCode42 0 msgStoreCode0 =
      ⟨[], [.saveWasmCode ⟨"sender-sc", [0, 97], none, 42, 100⟩], none⟩ := by
  have h := (claim_C3_code_id_extraction txStoreCode42 0 msgStoreCode0
      ⟨EventTypeStoreCode, [⟨AttributeKeyCodeID, "42"⟩]⟩ "42" (by decide)
      (by decide)).1 1 ['4', '2'] (by decide) (by decide) (by decide)
      (by decide) (by decide)
  exact h.trans (by decide)

/-- Counterexample for C3 as frozen: `"9223372036854775808"` (2^63) is
a valid decimal integer numeral — all characters are decimal digits and
its value is 9223372036854775808 — yet the handler returns the
`ParseInt` error (Go's `ErrRange`) and produces no code record, instead
of a record with that identifier. -/
theorem claim_C3_counterexample :
    "9223372036854775808".toList.all isDecDigit = true ∧
    decVal "9223372036854775808".toList = 9223372036854775808 ∧
    HandleMsgStoreCode txStoreCodeBig 0 msgStoreCode0 =
      ⟨[], [], some ⟨"error while parsing code id to int64",
                     .intParseFailed "9223372036854775808"⟩⟩ := by
  refine ⟨by decide, by decide, by decide⟩

/-- C4.  When every stage of an instantiate extraction succeeds, the
handler saves exactly one contract record, and that record's contract
address is the located instantiate event's contract-address attribute
value, verbatim. -/
theorem claim_C4_contract_address_verbatim (source : Source) (tx : Tx)
    (index : Nat) (m : MsgInstantiateContract) (event : Event)
    (addr rd : String) (bz : List Nat) (ci : ContractInfo) (t : Instant)
    (hev : FindEventByType tx index EventTypeInstantiate = some event)
    (haddr : FindAttributeByKey event AttributeKeyContractAddr = some addr)
    (hrd : FindAttributeByKey event AttributeKeyResultDataHex = some rd)
    (hbz : goBase64Decode rd = some bz)
    (hsrc : source tx.height addr = .ok ci)
    (hts : parseRFC3339 tx.timestamp = some t) :
    HandleMsgInstantiateContract source tx index m =
      ⟨[(tx.height, addr)],
       [.saveWasmContract (NewWasmContract rawContractMessageMarshalJSON
          m.sender m.admin m.codeID m.label m.msg m.funds addr bz t
          ci.creator ci.extension tx.height)], none⟩ ∧
    (NewWasmContract rawContractMessageMarshalJSON m.sender m.admin m.codeID
       m.label m.msg m.funds addr bz t ci.creator ci.extension
       tx.height).contractAddress = addr := by
  constructor
  · simp [HandleMsgInstantiateContract, hev, haddr, hrd, hbz, hsrc, hts]
  · rfl

/-- Witness for C4 at a complete concrete instantiate transaction. -/
theorem claim_C4_witness :
    HandleMsgInstantiateContract sourceOK txInstFull 0 msgInst0 =
      ⟨[(100, "wasm1contract")],
       [.saveWasmContract (NewWasmContract rawContractMessageMarshalJSON
          "sender-in" "admin-in" 7 "label-in" [123, 125] [⟨"stake", 5⟩]
          "wasm1contract" [65] ⟨2022, 1, 1, 10, 0, 0, 0, 0⟩ "creator-addr"
          "extension-data" 100)], none⟩ ∧
    (NewWasmContract rawContractMessageMarshalJSON "sender-in" "admin-in" 7
       "label-in" [123, 125] [⟨"stake", 5⟩] "wasm1contract" [65]
       ⟨2022, 1, 1, 10, 0, 0, 0, 0⟩ "creator-addr" "extension-data"
       100).contractAddress = "wasm1contract" := by
  have h := claim_C4_contract_address_verbatim sourceOK txInstFull 0 msgInst0
    ⟨EventTypeInstantiate,
     [⟨AttributeKeyContractAddr, "wasm1contract"⟩,
      ⟨AttributeKeyResultDataHex, "QQ=="⟩]⟩
    "wasm1contract" "QQ==" [65] ⟨"creator-addr", "extension-data"⟩
    ⟨2022, 1, 1, 10, 0, 0, 0, 0⟩ (by decide) (by decide) (by decide)
    (by decide) rfl (by decide)
  exact ⟨h.1.trans (by decide), h.2⟩

/-- C5.  In every instantiate extraction the metadata resolver is
called at most once, and any call it does receive happens only after
the contract-address attribute was found in the located instantiate
event, with arguments exactly the transaction's height and that
attribute's value. -/
theorem claim_C5_resolver_discipline (source : Source) (tx : Tx)
    (index : Nat) (m : MsgInstantiateContract) :
    (HandleMsgInstantiateContract source tx index m).resolverCalls.length
      ≤ 1 ∧
    ∀ p ∈ (HandleMsgInstantiateContract source tx index m).resolverCalls,
      p.1 = tx.height ∧
      ∃ event, FindEventByType tx index EventTypeInstantiate = some event ∧
        FindAttributeByKey event AttributeKeyContractAddr = some p.2 := by
  cases hev : FindEventByType tx index EventTypeInstantiate with
  | none => simp [HandleMsgInstantiateContract, hev]
  | some event =>
    cases haddr : FindAttributeByKey event AttributeKeyContractAddr with
    | none => simp [HandleMsgInstantiateContract, hev, haddr]
    | some addr =>
      cases hrd : FindAttributeByKey event AttributeKeyResultDataHex with
      | none => simp [HandleMsgInstantiateContract, hev, haddr, hrd]
      | some rd =>
        cases hbz : goBase64Decode rd with
        | none => simp [HandleMsgInstantiateContract, hev, haddr, hrd, hbz]
        | some bz =>
          cases hsrc : source tx.height addr with
          | error e =>
            constructor
            · simp [HandleMsgInstantiateContract, hev, haddr, hrd, hbz, hsrc]
            · intro p hp
              simp [HandleMsgInstantiateContract, hev, haddr, hrd, hbz,
                    hsrc] at hp
              subst hp
              exact ⟨rfl, event, rfl, haddr⟩
          | ok ci =>
            cases hts : parseRFC3339 tx.timestamp with
            | none =>
              constructor
              · simp [HandleMsgInstantiateContract, hev, haddr, hrd, hbz,
                      hsrc, hts]
              · intro p hp
                simp [HandleMsgInstantiateContract, hev, haddr, hrd, hbz,
                      hsrc, hts] at hp
                subst hp
                exact ⟨rfl, event, rfl, haddr⟩
            | some t =>
              constructor
              · simp [HandleMsgInstantiateContract, hev, haddr, hrd, hbz,
                      hsrc, hts]
              · intro p hp
                simp [HandleMsgInstantiateContract, hev, haddr, hrd, hbz,
                      hsrc, hts] at hp
                subst hp
                exact ⟨rfl, event, rfl, haddr⟩

/-- Witness for C5: at a complete concrete instantiate transaction the
call `(100, "wasm1contract")` is in the resolver trace, and the
theorem's conclusions hold of it. -/
theorem claim_C5_witness :
    (HandleMsgInstantiateContract sourceOK txInstFull 0
        msgInst0).resolverCalls.length ≤ 1 ∧
    (((100 : Int), "wasm1contract").1 = txInstFull.height ∧
     ∃ event, FindEventByType txInstFull 0 EventTypeInstantiate =
         some event ∧
       FindAttributeByKey event AttributeKeyContractAddr =
         some ((100 : Int), "wasm1contract").2) :=
  ⟨(claim_C5_resolver_discipline sourceOK txInstFull 0 msgInst0).1,
   (claim_C5_resolver_discipline sourceOK txInstFull 0 msgInst0).2
     (100, "wasm1contract") (by decide)⟩

/-- C7.  When a migrate extraction succeeds, the handler issues exactly
one targeted contract update whose code identifier and migrate payload
are the incoming message's own `CodeID` and `Msg` fields, together with
the message's sender and contract address and the base64-decoded
result-data attribute taken from the located migrate event. -/
theorem claim_C7_migrate_uses_message_fields (tx : Tx) (index : Nat)
    (m : MsgMigrateContract) (event : Event) (rd : String) (bz : List Nat)
    (hev : FindEventByType tx index EventTypeMigrate = some event)
    (hrd : FindAttributeByKey event AttributeKeyResultDataHex = some rd)
    (hbz : goBase64Decode rd = some bz) :
    HandleMsgMigrateContract tx index m =
      ⟨[], [.updateContractWithMsgMigrateContract m.sender m.contract
             m.codeID m.msg bz], none⟩ := by
  simp [HandleMsgMigrateContract, hev, hrd, hbz]

/-- Witness for C7 at a complete concrete migrate transaction. -/
theorem claim_C7_witness :
    HandleMsgMigrateContract txMigrFull 0 msgMigr0 =
      ⟨[], [.updateContractWithMsgMigrateContract "sender-mg" "contract-mg"
             9 [123, 125] [65]], none⟩ :=
  claim_C7_migrate_uses_message_fields txMigrFull 0 msgMigr0
    ⟨EventTypeMigrate, [⟨AttributeKeyResultDataHex, "QQ=="⟩]⟩ "QQ==" [65]
    (by decide) (by decide) (by decide)

/-- C6 (amended: the round trip holds for every attribute string that
is itself a standard base64 encoding of some byte sequence — i.e. lies
in the encoder's image — rather than for every string the decoder
accepts).  Decoding the encoding of any byte list succeeds and recovers
it, so re-encoding the decoded bytes reproduces such a string
exactly. -/
theorem claim_C6_roundtrip_on_encoder_image (bs : List Nat)
    (h : ∀ x ∈ bs, x < 256) :
    goBase64Decode (goBase64Encode bs) = some bs ∧
    ∀ ds, goBase64Decode (goBase64Encode bs) = some ds →
      goBase64Encode ds = goBase64Encode bs := by
  have hr : goBase64Decode (goBase64Encode bs) = some bs := by
    unfold goBase64Decode goBase64Encode
    rw [show (String.mk (encodeGroups bs)).toList = encodeGroups bs from rfl]
    rw [filter_encodeGroups]
    exact decodeGroups_encodeGroups bs h
  refine ⟨hr, ?_⟩
  intro ds hds
  rw [hr] at hds
  cases Option.some.inj hds
  rfl

/-- Witness for C6 on the payload `[77, 97, 110]` (`"Man"`, encoding
`"TWFu"`). -/
theorem claim_C6_witness :
    goBase64Decode (goBase64Encode [77, 97, 110]) = some [77, 97, 110] ∧
    ∀ ds, goBase64Decode (goBase64Encode [77, 97, 110]) = some ds →
      goBase64Encode ds = goBase64Encode [77, 97, 110] :=
  claim_C6_roundtrip_on_encoder_image [77, 97, 110] (by decide)

/-- Counterexample for C6 as frozen: the decode used for result-data
accepts `"QR=="` (Go's non-strict `StdEncoding` ignores the non-zero
discarded trailing bits of `R`), yielding the byte 65, but re-encoding
65 produces `"QQ=="`, not the original string. -/
theorem claim_C6_counterexample :
    goBase64Decode "QR==" = some [65] ∧
    goBase64Encode [65] = "QQ==" ∧
    goBase64Encode [65] ≠ "QR==" :=
  ⟨by decide, by decide, by decide⟩

end Wasm
